import Mathlib

/-!
Shallow embedding of the online multiplayer game-session subsystem of the
tictactoe-k8s backend (backend/main.go): the in-memory session registry,
the WebSocket move handling (`handleMessage`), win/tie detection, the
create/join/get HTTP handlers and the win-streak metrics recorder.

Modelling conventions:
* Go strings are `String`, Go `int`/`int64` are `Int` (no arithmetic here
  ever overflows 64 bits on the inputs involved).
* The `[9]string` board is a `List String` of length 9 (the zero array is
  nine empty strings).
* JSON values decoded into `interface{}` are modelled by the inductive
  `JVal`; JSON numbers reaching the move handler are integral cell indices,
  so they are modelled as `Int` (the Go code truncates `float64` with
  `int(...)`).
* A failed Go type assertion (`x.(float64)` on a non-number) is a runtime
  panic; fallible handling is therefore modelled with `Option`, `none`
  standing for the panic outcome.
* `time.Time` values are modelled as `Int` milliseconds, with `0` standing
  for the zero `time.Time` (`IsZero`).  Real clock readings are passed in
  as explicit parameters.
-/

/-- A decoded JSON value, as produced by `encoding/json` into
`map[string]interface{}` / `interface{}`. -/
inductive JVal where
  | jnull
  | jbool (b : Bool)
  | jnum (n : Int)
  | jstr (s : String)
  | jarr (elems : List JVal)
  | jobj (fields : List (String × JVal))

/-- Go `msg.Payload.(map[string]interface{})` with the `ok` form:
`some` of the field list when the payload is an object, else `none`. -/
def JVal.asObj : JVal → Option (List (String × JVal))
  | JVal.jobj fields => some fields
  | _ => none

/-- Go map indexing `payload[k]`: the value when present, `none` (Go `nil`)
when absent. -/
def jget (fields : List (String × JVal)) (k : String) : Option JVal :=
  fields.lookup k

/-- The unchecked Go type assertion `v.(float64)` followed by `int(...)`:
succeeds only on a number; on `nil` (missing key) or any other shape the
assertion panics, modelled by `none`. -/
def jnumAssert : Option JVal → Option Int
  | some (JVal.jnum n) => some n
  | _ => none

/-- The unchecked Go type assertion `v.(string)`: succeeds only on a
string; otherwise the assertion panics, modelled by `none`. -/
def jstrAssert : Option JVal → Option String
  | some (JVal.jstr s) => some s
  | _ => none

/-- One recorded move (Go struct `Move`). -/
structure Move where
  index : Int
  player : String
  time : Int
deriving DecidableEq, Repr

/-- One session (Go struct `OnlineGame`), without the connection list and
the mutex which carry no game state. -/
structure OnlineGame where
  id : String
  board : List String
  turn : String
  firstPlayer : String
  player1 : String
  player2 : String
  status : String
  winner : String
  pattern : String
  startedAt : Int
  moves : List Move
deriving DecidableEq, Repr

/-- The snapshot produced by `OnlineGame.toJSON` (exactly the fields that
method serializes). -/
structure Snapshot where
  id : String
  board : List String
  turn : String
  firstPlayer : String
  player1 : String
  player2 : String
  status : String
  winner : String
  pattern : String
deriving DecidableEq, Repr

/-- Go method `toJSON`. -/
def OnlineGame.toJSON (g : OnlineGame) : Snapshot :=
  ⟨g.id, g.board, g.turn, g.firstPlayer, g.player1, g.player2, g.status, g.winner, g.pattern⟩

/-- The inbound WebSocket envelope (Go struct `WSMessage`). -/
structure WSMessage where
  type : String
  payload : JVal

/-- Board cell access `g.Board[i]` (boards of interest have length 9 and
`i ≤ 8`, so the default is never consulted on faithful states). -/
def cell (b : List String) (i : Nat) : String :=
  b.getD i ""

/-- The `wins` table of `handleMessage`, in its exact source order:
3 rows, 3 columns, 2 diagonals. -/
def wins : List (Nat × Nat × Nat) :=
  [(0, 1, 2), (3, 4, 5), (6, 7, 8), (0, 3, 6), (1, 4, 7), (2, 5, 8), (0, 4, 8), (2, 4, 6)]

/-- The `patterns` map of `handleMessage`, keyed by the formatted triple. -/
def patterns : List (String × String) :=
  [("0,1,2", "row1"), ("3,4,5", "row2"), ("6,7,8", "row3"),
   ("0,3,6", "col1"), ("1,4,7", "col2"), ("2,5,8", "col3"),
   ("0,4,8", "diag1"), ("2,4,6", "diag2")]

/-- The formatted key `fmt.Sprintf("%d,%d,%d", w[0], w[1], w[2])`. -/
def patternKey (w : Nat × Nat × Nat) : String :=
  toString w.1 ++ "," ++ toString w.2.1 ++ "," ++ toString w.2.2

/-- Go map indexing `patterns[key]` (empty string when the key is absent,
which never happens for the 8 canonical triples). -/
def patternOf (w : Nat × Nat × Nat) : String :=
  ((patterns.lookup (patternKey w)).getD "")

/-- The per-line win test of `handleMessage`: the three cells are
non-empty and pairwise identical. -/
def lineWins (b : List String) (w : Nat × Nat × Nat) : Bool :=
  cell b w.1 != "" && cell b w.1 == cell b w.2.1 && cell b w.2.1 == cell b w.2.2

/-- The win-scan loop of `handleMessage`: the first triple of `wins`, in
order, whose three cells are non-empty and identical. -/
def firstWin (b : List String) : Option (Nat × Nat × Nat) :=
  wins.find? (lineWins b)

/-- The `isFull` loop of `handleMessage`: every cell non-empty. -/
def boardFull (b : List String) : Bool :=
  b.all (fun c => c != "")

/-- The mover owning the current turn mark (`expectedPlayer` in
`handleMessage`): `Player1` owns X, `Player2` owns O. -/
def expectedPlayer (g : OnlineGame) : String :=
  if g.turn == "O" then g.player2 else g.player1

/-- The move-rejection condition of `handleMessage`
(`player != expectedPlayer || idx < 0 || idx > 8 || g.Board[idx] != ""`). -/
def moveGuardFails (g : OnlineGame) (idx : Int) (player : String) : Bool :=
  player != expectedPlayer g || decide (idx < 0) || decide (idx > 8) || cell g.board idx.toNat != ""

/-- Result of one `handleMessage` call: the updated session plus the list
of `game_state` snapshots broadcast to the session's connections. -/
structure HMResult where
  game : OnlineGame
  broadcasts : List Snapshot
deriving DecidableEq, Repr

/-- The first two writes of the accepted path of `handleMessage`: the
mark placed on the board (`g.Board[idx] = g.Turn`) and the move appended
to the history.  `sinceStart` is the clock reading
`time.Since(g.StartedAt)` in milliseconds; the Go code substitutes 0 when
`StartedAt` is zero. -/
def placedGame (g : OnlineGame) (idx : Int) (sinceStart : Int) : OnlineGame :=
  { g with board := g.board.set idx.toNat g.turn,
           moves := g.moves ++ [⟨idx, g.turn, if g.startedAt == 0 then 0 else sinceStart⟩] }

/-- The body of `handleMessage` after the guard has passed: place the
mark, append to the move history, then win-scan / tie-check / turn-flip. -/
def applyAccepted (g : OnlineGame) (idx : Int) (player : String) (sinceStart : Int) : HMResult :=
  let g1 := placedGame g idx sinceStart
  match firstWin g1.board with
  | some w =>
      let g2 : OnlineGame := { g1 with status := "finished", winner := player, pattern := patternOf w }
      ⟨g2, [g2.toJSON]⟩
  | none =>
      if boardFull g1.board then
        let g2 : OnlineGame := { g1 with status := "finished" }
        ⟨g2, [g2.toJSON]⟩
      else
        let g2 : OnlineGame := { g1 with turn := if g.turn == "X" then "O" else "X" }
        ⟨g2, [g2.toJSON]⟩

/-- Go method `handleMessage`.  `none` is the panic outcome of an
unchecked type assertion on the payload; every other path returns the
updated session and its broadcasts (an unchanged session with no
broadcasts when the message is ignored). -/
def handleMessage (g : OnlineGame) (msg : WSMessage) (sinceStart : Int) : Option HMResult :=
  if msg.type != "move" || g.status != "playing" then some ⟨g, []⟩
  else
    match msg.payload.asObj with
    | none => some ⟨g, []⟩
    | some payload =>
      match jnumAssert (jget payload "index") with
      | none => none
      | some idx =>
        match jstrAssert (jget payload "player") with
        | none => none
        | some player =>
          if moveGuardFails g idx player then some ⟨g, []⟩
          else applyAccepted g idx player sinceStart

/-- A well-formed inbound move frame with the given index and mover. -/
def mkMoveMsg (idx : Int) (player : String) : WSMessage :=
  ⟨"move", JVal.jobj [("index", JVal.jnum idx), ("player", JVal.jstr player)]⟩

/-- The process-wide session table `games` (a Go map from id to session
pointer), as an association list: lookups take the first binding, updates
replace every binding of the key. -/
abbrev Registry := List (String × OnlineGame)

/-- Go map lookup `games[id]` with the `ok` form. -/
def lookupG (R : Registry) (id : String) : Option OnlineGame :=
  R.lookup id

/-- Go map assignment `games[id] = g` (and, because sessions are held by
pointer, also the visible effect of mutating the session stored at `id`). -/
def insertG (R : Registry) (id : String) (g : OnlineGame) : Registry :=
  (id, g) :: R.filter (fun p => p.1 != id)

/-- The coin flip of `createGameHandler`: `rand.Intn(2)` yields 0 or 1
uniformly; 1 selects O, otherwise X. -/
def firstPlayerOfCoin (coin : Fin 2) : String :=
  if coin.val == 1 then "O" else "X"

/-- The session `createGameHandler` constructs (zero values for the
fields it does not set). -/
def newOnlineGame (newId p1 firstPlayer : String) : OnlineGame :=
  { id := newId, board := List.replicate 9 "", turn := firstPlayer, firstPlayer := firstPlayer,
    player1 := p1, player2 := "", status := "waiting", winner := "", pattern := "",
    startedAt := 0, moves := [] }

/-- The JSON body `createGameHandler` returns on success. -/
structure CreateResponse where
  gameId : String
  firstPlayer : String
deriving DecidableEq, Repr

/-- Go handler `createGameHandler` (POST path).  `decodeOk` is whether the
body decoded; `coin` is the `rand.Intn(2)` draw; `newId` the fresh
truncated UUID.  Returns the HTTP outcome and the updated registry. -/
def createGame (decodeOk : Bool) (p1 : String) (coin : Fin 2) (newId : String) (R : Registry) :
    Except Nat CreateResponse × Registry :=
  if !decodeOk || p1 == "" then (Except.error 400, R)
  else
    let fp := firstPlayerOfCoin coin
    (Except.ok ⟨newId, fp⟩, insertG R newId (newOnlineGame newId p1 fp))

/-- Outcome of `joinGameHandler`: a 400 on body decode failure, a 404 on
unknown id, a 400 on a non-waiting session, or success carrying the
snapshot broadcast as `game_start` and the snapshot written as the
response body. -/
inductive JoinOut where
  | badRequest
  | notFound
  | alreadyStarted
  | ok (broadcastSnap : Snapshot) (respSnap : Snapshot)
deriving DecidableEq, Repr

/-- The HTTP status code each `joinGameHandler` outcome is written with. -/
def joinStatusCode : JoinOut → Nat
  | JoinOut.badRequest => 400
  | JoinOut.notFound => 404
  | JoinOut.alreadyStarted => 400
  | JoinOut.ok _ _ => 200

/-- Go handler `joinGameHandler` (POST path).  `now` is the clock reading
stored into `StartedAt`. -/
def joinGame (decodeOk : Bool) (gameId p2 : String) (now : Int) (R : Registry) :
    JoinOut × Registry :=
  if !decodeOk then (JoinOut.badRequest, R)
  else
    match lookupG R gameId with
    | none => (JoinOut.notFound, R)
    | some game =>
      if game.status != "waiting" then (JoinOut.alreadyStarted, R)
      else
        let game2 : OnlineGame := { game with player2 := p2, status := "playing", startedAt := now }
        (JoinOut.ok game2.toJSON game2.toJSON, insertG R gameId game2)

/-- Go handler `getGameHandler`: the snapshot of the session, or `none`
for the 404 outcome. -/
def getGame (gameId : String) (R : Registry) : Option Snapshot :=
  (lookupG R gameId).map OnlineGame.toJSON

/-- One registry-level operation of the subsystem. -/
inductive Op where
  | create (decodeOk : Bool) (p1 : String) (coin : Fin 2) (newId : String)
  | join (decodeOk : Bool) (gameId p2 : String) (now : Int)
  | wsMove (gameId : String) (msg : WSMessage) (sinceStart : Int)
  | getState (gameId : String)

/-- Effect of one operation on the registry.  A move on an unknown id is
the ws handler's 404 (no registry change); the panic outcome of
`handleMessage` happens before any mutation, so it also leaves the
registry unchanged. -/
def applyOp (R : Registry) : Op → Registry
  | Op.create decodeOk p1 coin newId => (createGame decodeOk p1 coin newId R).2
  | Op.join decodeOk gameId p2 now => (joinGame decodeOk gameId p2 now R).2
  | Op.wsMove gameId msg sinceStart =>
      match lookupG R gameId with
      | none => R
      | some g =>
        match handleMessage g msg sinceStart with
        | none => R
        | some r => insertG R gameId r.game
  | Op.getState _ => R

/-- Whether an operation is a create targeting the given id (the one way
a registry binding can be replaced wholesale; the real id is a fresh
random UUID prefix). -/
def createsId (op : Op) (id : String) : Bool :=
  match op with
  | Op.create _ _ _ newId => newId == id
  | _ => false

/-- The process-wide `winStreaks` map (`map[string]int`, absent keys read
as 0), as a total function. -/
abbrev Streaks := String → Int

/-- Go map assignment `winStreaks[p] = v`. -/
def setStreak (ws : Streaks) (p : String) (v : Int) : Streaks :=
  fun q => if q = p then v else ws q

/-- The result record posted for a finished game (Go struct
`GameResult`). -/
structure GameResult where
  player1 : String
  player2 : String
  winner : String
  pattern : String
  isTie : Bool
  mode : String
deriving DecidableEq, Repr

/-- The win-streak bookkeeping of Go `recordMetrics` (the Prometheus
counter increments carry no readable state and are omitted): on a tie both
participants reset to 0; on a win the winner increments, then the loser —
`player1`, or `player2` when `player1` won — resets to 0. -/
def recordMetrics (ws : Streaks) (r : GameResult) : Streaks :=
  if r.isTie then
    setStreak (setStreak ws r.player1 0) r.player2 0
  else
    let loser := if r.winner == r.player1 then r.player2 else r.player1
    let ws1 := setStreak ws r.winner (ws r.winner + 1)
    setStreak ws1 loser 0

/-- A decoded valid-looking move attempt (index and declared mover) as
carried by an inbound frame. -/
structure MoveAttempt where
  index : Int
  player : String
deriving DecidableEq, Repr

/-- The full acceptance test a move attempt passes inside
`handleMessage`: session playing and the rejection guard false. -/
def moveAccepted (g : OnlineGame) (m : MoveAttempt) : Bool :=
  g.status == "playing" && !moveGuardFails g m.index m.player

/-- One sequentially consistent interleaving of two unsynchronized
executions of `handleMessage` on the same session (the Go code acquires
no lock between the rejection guard and the writes): both threads
evaluate the guard against the initial state, then thread 1 performs the
accepted-path writes, then thread 2 does.  Broadcast lists are dropped;
only the session state is tracked. -/
def raceBothCheckFirst (g : OnlineGame) (m1 m2 : MoveAttempt) (t1 t2 : Int) : OnlineGame :=
  let ok1 := moveAccepted g m1
  let ok2 := moveAccepted g m2
  let g1 := if ok1 then (applyAccepted g m1.index m1.player t1).game else g
  if ok2 then (applyAccepted g1 m2.index m2.player t2).game else g1

/-- Number of occupied cells. -/
def filledCount (b : List String) : Nat :=
  (b.filter (fun c => c != "")).length

/-- A session in mid-game used as a concrete evaluation point: playing,
empty board, X (owned by Alice) to move. -/
def sampleGame : OnlineGame :=
  { id := "g1", board := List.replicate 9 "", turn := "X", firstPlayer := "X",
    player1 := "Alice", player2 := "Bob", status := "playing", winner := "", pattern := "",
    startedAt := 5, moves := [] }

/-- A session one move away from a row1 win: X (Alice) to move at 2. -/
def winGame : OnlineGame :=
  { sampleGame with board := ["X", "X", "", "O", "O", "", "", "", ""] }

/-- A session one move away from a tie: X (Alice) to move at 8, filling
the board with no line completed. -/
def tieGame : OnlineGame :=
  { sampleGame with board := ["X", "O", "X", "X", "O", "O", "O", "X", ""] }

/-- A finished session as stored in the registry. -/
def finishedGame : OnlineGame :=
  { sampleGame with
      board := ["X", "X", "X", "O", "O", "", "", "", ""],
      status := "finished", winner := "Alice", pattern := "row1",
      moves := [⟨0, "X", 1⟩, ⟨3, "O", 2⟩, ⟨1, "X", 3⟩, ⟨4, "O", 4⟩, ⟨2, "X", 5⟩] }

/-- A registry holding only the finished session. -/
def finishedRegistry : Registry := [("g1", finishedGame)]

/-- A burst of later operations aimed at the finished session (and one
fresh create elsewhere). -/
def lateOps : List Op :=
  [Op.join true "g1" "Eve" 50,
   Op.wsMove "g1" (mkMoveMsg 5 "Alice") 60,
   Op.getState "g1",
   Op.create true "Zed" 0 "h2",
   Op.wsMove "g1" (mkMoveMsg 5 "Bob") 70]

/- ------------------------------------------------------------------ -/
/- Helper lemmas                                                      -/
/- ------------------------------------------------------------------ -/

/-- A well-formed move frame on a playing session whose guard passes runs
the accepted path. -/
theorem handleMessage_mkMove_accepted (g : OnlineGame) (idx : Int) (player : String) (t : Int)
    (hstatus : g.status = "playing") (hguard : moveGuardFails g idx player = false) :
    handleMessage g (mkMoveMsg idx player) t = some (applyAccepted g idx player t) := by
  have h1 : jnumAssert (jget [("index", JVal.jnum idx), ("player", JVal.jstr player)] "index") =
      some idx := rfl
  have h2 : jstrAssert (jget [("index", JVal.jnum idx), ("player", JVal.jstr player)] "player") =
      some player := rfl
  simp [handleMessage, mkMoveMsg, hstatus, hguard, JVal.asObj, h1, h2]

/-- A well-formed move frame on a playing session whose guard fails is
ignored: unchanged session, no broadcast. -/
theorem handleMessage_mkMove_rejected (g : OnlineGame) (idx : Int) (player : String) (t : Int)
    (hstatus : g.status = "playing") (hguard : moveGuardFails g idx player = true) :
    handleMessage g (mkMoveMsg idx player) t = some ⟨g, []⟩ := by
  have h1 : jnumAssert (jget [("index", JVal.jnum idx), ("player", JVal.jstr player)] "index") =
      some idx := rfl
  have h2 : jstrAssert (jget [("index", JVal.jnum idx), ("player", JVal.jstr player)] "player") =
      some player := rfl
  simp [handleMessage, mkMoveMsg, hstatus, hguard, JVal.asObj, h1, h2]

/-- Any frame on a session that is not in status playing is ignored. -/
theorem handleMessage_not_playing (g : OnlineGame) (msg : WSMessage) (t : Int)
    (hstatus : g.status ≠ "playing") :
    handleMessage g msg t = some ⟨g, []⟩ := by
  have hb : (g.status != "playing") = true := bne_iff_ne.mpr hstatus
  simp [handleMessage, hb]

/-- The rejection guard, spelled as the disjunction of the four source
conditions. -/
theorem moveGuardFails_iff (g : OnlineGame) (idx : Int) (player : String) :
    moveGuardFails g idx player = true ↔
      (player ≠ expectedPlayer g ∨ idx < 0 ∨ 8 < idx ∨ cell g.board idx.toNat ≠ "") := by
  simp [moveGuardFails, Bool.or_eq_true, bne_iff_ne, decide_eq_true_iff, or_assoc]

/-- The per-line test, spelled as the spec does: three cells non-empty
and identical. -/
theorem lineWins_iff (b : List String) (w : Nat × Nat × Nat) :
    lineWins b w = true ↔
      (cell b w.1 ≠ "" ∧ cell b w.1 = cell b w.2.1 ∧ cell b w.2.1 = cell b w.2.2) := by
  simp [lineWins, Bool.and_eq_true, bne_iff_ne, beq_iff_eq, and_assoc]

/-- Every canonical line carries a non-empty pattern label. -/
theorem patternOf_ne_empty : ∀ w ∈ wins, patternOf w ≠ "" := by
  decide

theorem placedGame_board (g : OnlineGame) (idx : Int) (t : Int) :
    (placedGame g idx t).board = g.board.set idx.toNat g.turn := rfl

theorem placedGame_status (g : OnlineGame) (idx : Int) (t : Int) :
    (placedGame g idx t).status = g.status := rfl

theorem placedGame_winner (g : OnlineGame) (idx : Int) (t : Int) :
    (placedGame g idx t).winner = g.winner := rfl

theorem placedGame_pattern (g : OnlineGame) (idx : Int) (t : Int) :
    (placedGame g idx t).pattern = g.pattern := rfl

theorem placedGame_turn (g : OnlineGame) (idx : Int) (t : Int) :
    (placedGame g idx t).turn = g.turn := rfl

theorem placedGame_moves (g : OnlineGame) (idx : Int) (t : Int) :
    (placedGame g idx t).moves =
      g.moves ++ [⟨idx, g.turn, if g.startedAt == 0 then 0 else t⟩] := rfl

/-- Accepted path when the scan finds a completed line. -/
theorem applyAccepted_win (g : OnlineGame) (idx : Int) (player : String) (t : Int)
    (w : Nat × Nat × Nat) (hw : firstWin (g.board.set idx.toNat g.turn) = some w) :
    applyAccepted g idx player t =
      ⟨{ placedGame g idx t with status := "finished", winner := player, pattern := patternOf w },
       [OnlineGame.toJSON
          { placedGame g idx t with status := "finished", winner := player, pattern := patternOf w }]⟩ := by
  simp only [applyAccepted, placedGame_board, hw]

/-- Accepted path when no line is completed and the board is now full. -/
theorem applyAccepted_tie (g : OnlineGame) (idx : Int) (player : String) (t : Int)
    (hw : firstWin (g.board.set idx.toNat g.turn) = none)
    (hfull : boardFull (g.board.set idx.toNat g.turn) = true) :
    applyAccepted g idx player t =
      ⟨{ placedGame g idx t with status := "finished" },
       [OnlineGame.toJSON { placedGame g idx t with status := "finished" }]⟩ := by
  simp only [applyAccepted, placedGame_board, hw, hfull]
  rfl

/-- Accepted path when no line is completed and empty cells remain. -/
theorem applyAccepted_flip (g : OnlineGame) (idx : Int) (player : String) (t : Int)
    (hw : firstWin (g.board.set idx.toNat g.turn) = none)
    (hfull : boardFull (g.board.set idx.toNat g.turn) = false) :
    applyAccepted g idx player t =
      ⟨{ placedGame g idx t with turn := if g.turn == "X" then "O" else "X" },
       [OnlineGame.toJSON
          { placedGame g idx t with turn := if g.turn == "X" then "O" else "X" }]⟩ := by
  simp only [applyAccepted, placedGame_board, hw, hfull]
  rfl


theorem lookupG_insertG_self (R : Registry) (id : String) (g : OnlineGame) :
    lookupG (insertG R id g) id = some g := by
  simp [lookupG, insertG, List.lookup]

theorem lookup_filter_ne (L : Registry) (id idq : String) (h : idq ≠ id) :
    List.lookup idq (L.filter (fun p => p.1 != id)) = List.lookup idq L := by
  induction L with
  | nil => rfl
  | cons hd tl ih =>
    by_cases hk : hd.1 = id
    · have hdrop : (hd.1 != id) = false := by simp [hk]
      have hne2 : (idq == hd.1) = false := by
        rw [hk]; exact beq_eq_false_iff_ne.mpr h
      simp [List.filter, hdrop, List.lookup, hne2, ih]
    · have hkeep : (hd.1 != id) = true := bne_iff_ne.mpr hk
      by_cases hq : idq = hd.1
      · simp [List.filter, hkeep, List.lookup, hq]
      · have hne2 : (idq == hd.1) = false := beq_eq_false_iff_ne.mpr hq
        simp [List.filter, hkeep, List.lookup, hne2, ih]

theorem lookupG_insertG_ne (R : Registry) (id idq : String) (g : OnlineGame) (h : idq ≠ id) :
    lookupG (insertG R id g) idq = lookupG R idq := by
  have hne : (idq == id) = false := beq_eq_false_iff_ne.mpr h
  simp [lookupG, insertG, List.lookup, hne, lookup_filter_ne R id idq h]

/-- One later operation leaves a finished session's registry binding
exactly as it is, provided the operation is not a create colliding with
its id (ids are fresh random UUID prefixes). -/
theorem applyOp_preserves_finished (R : Registry) (id : String) (g : OnlineGame) (op : Op)
    (hg : lookupG R id = some g) (hfin : g.status = "finished")
    (hop : createsId op id = false) :
    lookupG (applyOp R op) id = some g := by
  cases op with
  | create decodeOk p1 coin newId =>
    have hne : id ≠ newId := Ne.symm (by simpa [createsId] using hop)
    simp only [applyOp, createGame]
    by_cases hc : (!decodeOk || p1 == "") = true
    · simp [hc, hg]
    · simp only [Bool.not_eq_true] at hc
      simp [hc, lookupG_insertG_ne _ _ _ _ hne, hg]
  | join decodeOk gameId p2 now =>
    cases decodeOk with
    | false => simpa [applyOp, joinGame] using hg
    | true =>
      cases hh : lookupG R gameId with
      | none => simpa [applyOp, joinGame, hh] using hg
      | some game =>
        by_cases hgid : gameId = id
        · have h2 := hh
          rw [hgid, hg] at h2
          have hgg : game = g := (Option.some.inj h2).symm
          have hb : (game.status != "waiting") = true := by rw [hgg, hfin]; decide
          simpa [applyOp, joinGame, hh, hb] using hg
        · by_cases hst : (game.status != "waiting") = true
          · simpa [applyOp, joinGame, hh, hst] using hg
          · simp only [Bool.not_eq_true] at hst
            have hkeep := lookupG_insertG_ne R gameId id
              ({ game with player2 := p2, status := "playing", startedAt := now })
              (Ne.symm hgid)
            simp [applyOp, joinGame, hh, hst, hkeep, hg]
  | wsMove gameId msg sinceStart =>
    cases hh : lookupG R gameId with
    | none => simpa [applyOp, hh] using hg
    | some game =>
      by_cases hgid : gameId = id
      · have h2 := hh
        rw [hgid, hg] at h2
        have hgg : game = g := (Option.some.inj h2).symm
        have hfin2 : game.status = "finished" := by rw [hgg, hfin]
        have hnp := handleMessage_not_playing game msg sinceStart (by rw [hfin2]; decide)
        simp only [applyOp, hh, hnp]
        rw [hgid, hgg]
        exact lookupG_insertG_self R id g
      · cases hm : handleMessage game msg sinceStart with
        | none => simpa [applyOp, hh, hm] using hg
        | some r =>
          simp only [applyOp, hh, hm]
          rw [lookupG_insertG_ne R gameId id r.game (Ne.symm hgid)]
          exact hg
  | getState gameId => exact hg

/- ------------------------------------------------------------------ -/
/- Claim theorems                                                     -/
/- ------------------------------------------------------------------ -/

/-- C8: a finished session is terminal — under any later sequence of
create/join/move/get operations (creates drawing fresh ids), its registry
binding stays exactly the finished state: no join or move alters its
board, turn, status, winner or pattern, it is never deleted, and
get-state keeps returning the final snapshot. -/
theorem finished_session_terminal (R : Registry) (id : String) (g : OnlineGame) (ops : List Op)
    (hg : lookupG R id = some g) (hfin : g.status = "finished")
    (hfresh : ∀ op ∈ ops, createsId op id = false) :
    lookupG (ops.foldl applyOp R) id = some g ∧
    getGame id (ops.foldl applyOp R) = some g.toJSON := by
  have hmain : ∀ (l : List Op) (S : Registry), lookupG S id = some g →
      (∀ op ∈ l, createsId op id = false) →
      lookupG (l.foldl applyOp S) id = some g := by
    intro l
    induction l with
    | nil => intro S hS _; exact hS
    | cons op rest ih =>
      intro S hS hfr
      simp only [List.foldl_cons]
      exact ih (applyOp S op)
        (applyOp_preserves_finished S id g op hS hfin (hfr op (List.mem_cons_self op rest)))
        (fun o ho => hfr o (List.mem_cons_of_mem op ho))
  refine ⟨hmain ops R hg hfresh, ?_⟩
  simp [getGame, hmain ops R hg hfresh]

/-- Witness for C8: a concrete finished session survives a late join
attempt, two late move frames, a get, and an unrelated create,
unchanged. -/
theorem finished_session_terminal_witness :
    lookupG finishedRegistry "g1" = some finishedGame ∧
    finishedGame.status = "finished" ∧
    (∀ op ∈ lateOps, createsId op "g1" = false) ∧
    (lookupG (lateOps.foldl applyOp finishedRegistry) "g1" = some finishedGame ∧
     getGame "g1" (lateOps.foldl applyOp finishedRegistry) = some finishedGame.toJSON) :=
  ⟨rfl, rfl, by decide,
    finished_session_terminal finishedRegistry "g1" finishedGame lateOps rfl rfl (by decide)⟩

/-- C1: an accepted move reports a win exactly when one of the 8
canonical lines is non-empty and identical after the move; the lines are
scanned in the fixed source order and the first match fixes the reported
pattern label; the `wins` table and its labels are exactly
row1..row3, col1..col3, diag1, diag2 in that order. -/
theorem applyMove_reports_win_iff (g : OnlineGame) (idx : Int) (player : String) (t : Int)
    (res : HMResult)
    (hlen : g.board.length = 9)
    (hstatus : g.status = "playing")
    (hpat : g.pattern = "")
    (hguard : moveGuardFails g idx player = false)
    (hres : handleMessage g (mkMoveMsg idx player) t = some res) :
    (∀ w ∈ wins, (lineWins (g.board.set idx.toNat g.turn) w = true ↔
        (cell (g.board.set idx.toNat g.turn) w.1 ≠ "" ∧
         cell (g.board.set idx.toNat g.turn) w.1 = cell (g.board.set idx.toNat g.turn) w.2.1 ∧
         cell (g.board.set idx.toNat g.turn) w.2.1 = cell (g.board.set idx.toNat g.turn) w.2.2))) ∧
    ((∃ w ∈ wins, lineWins (g.board.set idx.toNat g.turn) w = true) ↔
        (res.game.status = "finished" ∧ res.game.pattern ≠ "")) ∧
    (∀ w, firstWin (g.board.set idx.toNat g.turn) = some w →
        res.game.winner = player ∧ res.game.pattern = patternOf w) ∧
    wins = [(0, 1, 2), (3, 4, 5), (6, 7, 8), (0, 3, 6), (1, 4, 7), (2, 5, 8), (0, 4, 8), (2, 4, 6)] ∧
    wins.map patternOf = ["row1", "row2", "row3", "col1", "col2", "col3", "diag1", "diag2"] := by
  have hacc := handleMessage_mkMove_accepted g idx player t hstatus hguard
  rw [hacc, Option.some.injEq] at hres
  subst hres
  refine ⟨fun w _ => lineWins_iff _ w, ?_, ?_, rfl, by decide⟩
  · cases hfw : firstWin (g.board.set idx.toNat g.turn) with
    | none =>
      have hnone : ∀ w ∈ wins, ¬ lineWins (g.board.set idx.toNat g.turn) w = true := by
        simpa [firstWin] using List.find?_eq_none.mp hfw
      constructor
      · rintro ⟨w, hw, hlw⟩
        exact absurd hlw (hnone w hw)
      · rintro ⟨hst, hptn⟩
        cases hfull : boardFull (g.board.set idx.toNat g.turn) with
        | true =>
          rw [applyAccepted_tie g idx player t hfw hfull] at hptn
          exact absurd hpat hptn
        | false =>
          rw [applyAccepted_flip g idx player t hfw hfull] at hst
          rw [show ({ placedGame g idx t with
              turn := if g.turn == "X" then "O" else "X" } : OnlineGame).status =
                g.status from rfl, hstatus] at hst
          exact absurd hst (by decide)
    | some w =>
      have hmem : w ∈ wins := List.mem_of_find?_eq_some hfw
      have hlw : lineWins (g.board.set idx.toNat g.turn) w = true := List.find?_some hfw
      rw [applyAccepted_win g idx player t w hfw]
      exact iff_of_true ⟨w, hmem, hlw⟩ ⟨rfl, patternOf_ne_empty w hmem⟩
  · intro w hfw
    rw [applyAccepted_win g idx player t w hfw]
    exact ⟨rfl, rfl⟩

/-- Witness for C1: Alice completes row1 by playing cell 2; the scan
finds (0,1,2) first and the move is reported with winner Alice, pattern
row1. -/
theorem applyMove_reports_win_iff_witness :
    firstWin (winGame.board.set ((2 : Int)).toNat winGame.turn) = some (0, 1, 2) ∧
    (applyAccepted winGame 2 "Alice" 3).game.winner = "Alice" ∧
    (applyAccepted winGame 2 "Alice" 3).game.pattern = "row1" :=
  ⟨by decide, by
    have h := (applyMove_reports_win_iff winGame 2 "Alice" 3 (applyAccepted winGame 2 "Alice" 3)
        (by decide) rfl rfl (by decide) rfl).2.2.1 (0, 1, 2) (by decide)
    exact ⟨h.1, h.2⟩⟩

/-- C2: an accepted move that completes no line either fills the board —
then the session becomes finished with no winner recorded (a tie, never
reported as a win: winner and pattern are untouched) and the new snapshot
is broadcast — or leaves an empty cell, in which case the turn flips to
the other mark, the new snapshot is broadcast, and the status stays
playing. -/
theorem valid_move_no_win_tie_or_flip (g : OnlineGame) (idx : Int) (player : String) (t : Int)
    (res : HMResult)
    (hlen : g.board.length = 9)
    (hstatus : g.status = "playing")
    (hwin : g.winner = "")
    (hguard : moveGuardFails g idx player = false)
    (hnowin : firstWin (g.board.set idx.toNat g.turn) = none)
    (hres : handleMessage g (mkMoveMsg idx player) t = some res) :
    res.game.board = g.board.set idx.toNat g.turn ∧
    (boardFull (g.board.set idx.toNat g.turn) = true →
       res.game.status = "finished" ∧ res.game.winner = "" ∧ res.game.pattern = g.pattern ∧
       res.broadcasts = [res.game.toJSON]) ∧
    (boardFull (g.board.set idx.toNat g.turn) = false →
       res.game.status = "playing" ∧
       res.game.turn = (if g.turn == "X" then "O" else "X") ∧
       res.game.winner = "" ∧
       res.broadcasts = [res.game.toJSON]) := by
  have hacc := handleMessage_mkMove_accepted g idx player t hstatus hguard
  rw [hacc, Option.some.injEq] at hres
  subst hres
  refine ⟨?_, fun hfull => ?_, fun hfull => ?_⟩
  · cases hfull : boardFull (g.board.set idx.toNat g.turn) with
    | true =>
      rw [applyAccepted_tie g idx player t hnowin hfull]
      rfl
    | false =>
      rw [applyAccepted_flip g idx player t hnowin hfull]
      rfl
  · rw [applyAccepted_tie g idx player t hnowin hfull]
    exact ⟨rfl, hwin, rfl, rfl⟩
  · rw [applyAccepted_flip g idx player t hnowin hfull]
    exact ⟨hstatus, rfl, hwin, rfl⟩

/-- Witness for C2 at the concrete tie: Alice fills the last cell (8),
no line completes, the session finishes with empty winner and the
snapshot is broadcast. -/
theorem valid_move_no_win_tie_or_flip_witness :
    firstWin (tieGame.board.set ((8 : Int)).toNat tieGame.turn) = none ∧
    boardFull (tieGame.board.set ((8 : Int)).toNat tieGame.turn) = true ∧
    ((applyAccepted tieGame 8 "Alice" 3).game.status = "finished" ∧
     (applyAccepted tieGame 8 "Alice" 3).game.winner = "" ∧
     (applyAccepted tieGame 8 "Alice" 3).game.pattern = tieGame.pattern ∧
     (applyAccepted tieGame 8 "Alice" 3).broadcasts =
       [(applyAccepted tieGame 8 "Alice" 3).game.toJSON]) :=
  ⟨by decide, by decide,
    (valid_move_no_win_tie_or_flip tieGame 8 "Alice" 3 (applyAccepted tieGame 8 "Alice" 3)
        (by decide) rfl rfl (by decide) (by decide) rfl).2.1 (by decide)⟩

/-- C3: on a playing session, a move frame whose declared mover does not
own the current turn mark, or whose index is out of range, or whose
target cell is occupied, is rejected silently: `handleMessage` returns
the session unchanged (board, turn, status, move history intact) and
broadcasts nothing. -/
theorem invalid_move_rejected_silently (g : OnlineGame) (idx : Int) (player : String) (t : Int)
    (hlen : g.board.length = 9)
    (hstatus : g.status = "playing")
    (hbad : player ≠ expectedPlayer g ∨ idx < 0 ∨ 8 < idx ∨ cell g.board idx.toNat ≠ "") :
    handleMessage g (mkMoveMsg idx player) t = some ⟨g, []⟩ :=
  handleMessage_mkMove_rejected g idx player t hstatus ((moveGuardFails_iff g idx player).mpr hbad)

/-- Witness for C3 at a concrete out-of-range move (index -1 on a fresh
playing session). -/
theorem invalid_move_rejected_silently_witness :
    sampleGame.board.length = 9 ∧ sampleGame.status = "playing" ∧ (-1 : Int) < 0 ∧
    handleMessage sampleGame (mkMoveMsg (-1) "Alice") 3 = some ⟨sampleGame, []⟩ :=
  ⟨by decide, rfl, by decide,
    invalid_move_rejected_silently sampleGame (-1) "Alice" 3 (by decide) rfl
      (Or.inr (Or.inl (by decide)))⟩

/-- C4 (code evidence): `handleMessage` performs its rejection-guard read
and its writes with no session lock, so the interleaving in which both
threads evaluate the guard before either writes is admissible; on it two
valid-looking frames for the same turn are BOTH accepted — the board
gains two marks and the move history two entries, and the second mark is
even placed as O although only Alice's frames arrived.  Processed
sequentially (the behaviour a session lock would force), the same two
frames yield exactly one accepted move and one silent rejection. -/
theorem unsynchronized_moves_both_accepted :
    moveAccepted sampleGame ⟨0, "Alice"⟩ = true ∧
    moveAccepted sampleGame ⟨1, "Alice"⟩ = true ∧
    filledCount (raceBothCheckFirst sampleGame ⟨0, "Alice"⟩ ⟨1, "Alice"⟩ 7 9).board = 2 ∧
    (raceBothCheckFirst sampleGame ⟨0, "Alice"⟩ ⟨1, "Alice"⟩ 7 9).moves.length = 2 ∧
    cell (raceBothCheckFirst sampleGame ⟨0, "Alice"⟩ ⟨1, "Alice"⟩ 7 9).board 1 = "O" ∧
    handleMessage (applyAccepted sampleGame 0 "Alice" 7).game (mkMoveMsg 1 "Alice") 9 =
      some ⟨(applyAccepted sampleGame 0 "Alice" 7).game, []⟩ ∧
    filledCount (applyAccepted sampleGame 0 "Alice" 7).game.board = 1 := by
  decide

/-- C5 (code evidence): a move frame on a playing session whose payload
is an object lacking a numeric `index`, carrying a non-numeric `index`,
or lacking a string `player`, hits an unchecked Go type assertion and
panics (modelled `none`) instead of being silently ignored; only the
payload-is-not-an-object case is silently ignored as the claim states. -/
theorem malformed_move_frame_not_ignored :
    handleMessage sampleGame ⟨"move", JVal.jobj [("player", JVal.jstr "Alice")]⟩ 3 = none ∧
    handleMessage sampleGame
      ⟨"move", JVal.jobj [("index", JVal.jstr "zero"), ("player", JVal.jstr "Alice")]⟩ 3 = none ∧
    handleMessage sampleGame ⟨"move", JVal.jobj [("index", JVal.jnum 0)]⟩ 3 = none ∧
    handleMessage sampleGame ⟨"move", JVal.jstr "not-an-object"⟩ 3 = some ⟨sampleGame, []⟩ := by
  decide

/-- C6: a create request with a malformed body or an empty player1 gets
400 and leaves the registry unchanged; otherwise a fresh session is
registered with turn equal to the coin-selected first player, status
waiting and an empty board, and the response carries the id and the
first player.  Each of the two equally likely `rand.Intn(2)` draws
selects a distinct mark, so the selection is uniform over X and O. -/
theorem create_game_correct (decodeOk : Bool) (p1 : String) (coin : Fin 2) (newId : String)
    (R : Registry) :
    ((decodeOk = false ∨ p1 = "") →
       createGame decodeOk p1 coin newId R = (Except.error 400, R)) ∧
    (decodeOk = true → p1 ≠ "" →
       createGame decodeOk p1 coin newId R =
         (Except.ok ⟨newId, firstPlayerOfCoin coin⟩,
          insertG R newId (newOnlineGame newId p1 (firstPlayerOfCoin coin))) ∧
       (newOnlineGame newId p1 (firstPlayerOfCoin coin)).turn = firstPlayerOfCoin coin ∧
       (newOnlineGame newId p1 (firstPlayerOfCoin coin)).status = "waiting" ∧
       (newOnlineGame newId p1 (firstPlayerOfCoin coin)).board = List.replicate 9 "") ∧
    (Finset.filter (fun c : Fin 2 => firstPlayerOfCoin c = "X") Finset.univ).card = 1 ∧
    (Finset.filter (fun c : Fin 2 => firstPlayerOfCoin c = "O") Finset.univ).card = 1 := by
  refine ⟨?_, ?_, by decide, by decide⟩
  · rintro (h | h)
    · subst h; rfl
    · subst h; simp [createGame]
  · intro hok hne
    subst hok
    have hb : (p1 == "") = false := beq_eq_false_iff_ne.mpr hne
    refine ⟨?_, rfl, rfl, rfl⟩
    simp [createGame, hb]

/-- Witness for C6 at a concrete successful create (coin draw 1, hence
first player O). -/
theorem create_game_correct_witness :
    createGame true "Alice" 1 "abc123" [] =
      (Except.ok ⟨"abc123", "O"⟩,
       insertG [] "abc123" (newOnlineGame "abc123" "Alice" "O")) :=
  ((create_game_correct true "Alice" 1 "abc123" []).2.1 rfl (by decide)).1

/-- C7: a join request for an unknown id gets 404 with the registry
unchanged; one for a session not in status waiting gets 400 with the
session untouched; otherwise player2 is recorded, the status becomes
playing, startedAt is set to now, and the same full snapshot is both
broadcast as game_start and returned as the response body. -/
theorem join_game_correct (decodeOk : Bool) (gameId p2 : String) (now : Int) (R : Registry) :
    (decodeOk = true → lookupG R gameId = none →
       joinGame decodeOk gameId p2 now R = (JoinOut.notFound, R) ∧
       joinStatusCode (joinGame decodeOk gameId p2 now R).1 = 404) ∧
    (∀ g, decodeOk = true → lookupG R gameId = some g → g.status ≠ "waiting" →
       joinGame decodeOk gameId p2 now R = (JoinOut.alreadyStarted, R) ∧
       joinStatusCode (joinGame decodeOk gameId p2 now R).1 = 400) ∧
    (∀ g, decodeOk = true → lookupG R gameId = some g → g.status = "waiting" →
       joinGame decodeOk gameId p2 now R =
         (JoinOut.ok
            (OnlineGame.toJSON { g with player2 := p2, status := "playing", startedAt := now })
            (OnlineGame.toJSON { g with player2 := p2, status := "playing", startedAt := now }),
          insertG R gameId { g with player2 := p2, status := "playing", startedAt := now })) := by
  refine ⟨?_, ?_, ?_⟩
  · intro hok hnone
    subst hok
    refine ⟨by simp [joinGame, hnone], by simp [joinGame, hnone, joinStatusCode]⟩
  · intro g hok hsome hne
    subst hok
    have hb : (g.status != "waiting") = true := bne_iff_ne.mpr hne
    refine ⟨by simp [joinGame, hsome, hb], by simp [joinGame, hsome, hb, joinStatusCode]⟩
  · intro g hok hsome heq
    subst hok
    have hb : (g.status != "waiting") = false := by simp [heq]
    simp [joinGame, hsome, hb]

/-- Witness for C7 at a concrete successful join of a waiting session. -/
theorem join_game_correct_witness :
    joinGame true "g1" "Bob" 4 [("g1", newOnlineGame "g1" "Alice" "X")] =
      (JoinOut.ok
         (OnlineGame.toJSON
           { newOnlineGame "g1" "Alice" "X" with
               player2 := "Bob", status := "playing", startedAt := 4 })
         (OnlineGame.toJSON
           { newOnlineGame "g1" "Alice" "X" with
               player2 := "Bob", status := "playing", startedAt := 4 }),
       insertG [("g1", newOnlineGame "g1" "Alice" "X")] "g1"
         { newOnlineGame "g1" "Alice" "X" with
             player2 := "Bob", status := "playing", startedAt := 4 }) :=
  (join_game_correct true "g1" "Bob" 4 [("g1", newOnlineGame "g1" "Alice" "X")]).2.2
    (newOnlineGame "g1" "Alice" "X") rfl rfl rfl

/-- C9: at any point of a sequence of processed result records (an
arbitrary current streak table), a tie resets both participants to 0,
and a win increments the winner's streak by one and resets the loser —
the other participant — to 0. -/
theorem win_streak_update (ws : Streaks) (r : GameResult)
    (hpart : r.winner = r.player1 ∨ r.winner = r.player2)
    (hne : r.player1 ≠ r.player2) :
    (r.isTie = true →
       recordMetrics ws r r.player1 = 0 ∧ recordMetrics ws r r.player2 = 0) ∧
    (r.isTie = false →
       recordMetrics ws r r.winner = ws r.winner + 1 ∧
       (r.winner = r.player1 → recordMetrics ws r r.player2 = 0) ∧
       (r.winner = r.player2 → recordMetrics ws r r.player1 = 0)) := by
  constructor
  · intro ht
    constructor
    · by_cases h : r.player1 = r.player2
      · simp [recordMetrics, ht, setStreak, h]
      · simp [recordMetrics, ht, setStreak, h]
    · simp [recordMetrics, ht, setStreak]
  · intro ht
    rcases hpart with h1 | h2
    · refine ⟨?_, fun _ => ?_, fun hw2 => absurd (h1.symm.trans hw2) hne⟩
      · simp [recordMetrics, ht, setStreak, h1, hne]
      · simp [recordMetrics, ht, setStreak, h1]
    · have hb : (r.winner == r.player1) = false := by
        rw [h2]; exact beq_eq_false_iff_ne.mpr (Ne.symm hne)
      refine ⟨?_, fun hw1 => absurd (hw1.symm.trans h2) hne, fun _ => ?_⟩
      · simp [recordMetrics, ht, setStreak, hb, h2, Ne.symm hne]
      · simp [recordMetrics, ht, setStreak, hb]

/-- Witness for C9 at a concrete win of Alice over Bob from a zero
table. -/
theorem win_streak_update_witness :
    ("Alice" : String) ≠ "Bob" ∧
    recordMetrics (fun _ => 0) ⟨"Alice", "Bob", "Alice", "row1", false, "online"⟩ "Alice" = 1 ∧
    recordMetrics (fun _ => 0) ⟨"Alice", "Bob", "Alice", "row1", false, "online"⟩ "Bob" = 0 :=
  ⟨by decide,
   by
    have h := (win_streak_update (fun _ => 0)
        ⟨"Alice", "Bob", "Alice", "row1", false, "online"⟩ (Or.inl rfl) (by decide)).2 rfl
    exact h.1,
   by
    have h := (win_streak_update (fun _ => 0)
        ⟨"Alice", "Bob", "Alice", "row1", false, "online"⟩ (Or.inl rfl) (by decide)).2 rfl
    exact h.2.1 rfl⟩

/-- C10: join performs no non-emptiness validation on player2 — a join
with the empty string on a waiting session succeeds and records the
empty name — although create rejects an empty player1 with 400. -/
theorem join_accepts_empty_player2 (R : Registry) (gameId : String) (g : OnlineGame) (now : Int)
    (hg : lookupG R gameId = some g) (hw : g.status = "waiting") :
    joinGame true gameId "" now R =
      (JoinOut.ok
         (OnlineGame.toJSON { g with player2 := "", status := "playing", startedAt := now })
         (OnlineGame.toJSON { g with player2 := "", status := "playing", startedAt := now }),
       insertG R gameId { g with player2 := "", status := "playing", startedAt := now }) ∧
    ({ g with player2 := "", status := "playing", startedAt := now } : OnlineGame).player2 = "" ∧
    (∀ (coin : Fin 2) (newId : String) (R2 : Registry),
       createGame true "" coin newId R2 = (Except.error 400, R2)) := by
  refine ⟨?_, rfl, fun coin newId R2 => rfl⟩
  have hb : (g.status != "waiting") = false := by simp [hw]
  simp [joinGame, hg, hb]

/-- Witness for C10 at a concrete empty-name join. -/
theorem join_accepts_empty_player2_witness :
    lookupG [("g1", newOnlineGame "g1" "Alice" "X")] "g1" = some (newOnlineGame "g1" "Alice" "X") ∧
    (joinGame true "g1" "" 4 [("g1", newOnlineGame "g1" "Alice" "X")]).1 =
      JoinOut.ok
        (OnlineGame.toJSON
          { newOnlineGame "g1" "Alice" "X" with
              player2 := "", status := "playing", startedAt := 4 })
        (OnlineGame.toJSON
          { newOnlineGame "g1" "Alice" "X" with
              player2 := "", status := "playing", startedAt := 4 }) :=
  ⟨rfl, by
    have h := (join_accepts_empty_player2 [("g1", newOnlineGame "g1" "Alice" "X")] "g1"
        (newOnlineGame "g1" "Alice" "X") 4 rfl rfl).1
    rw [h]⟩
